import Mathlib

/-!
Verification of the marketing forecast service (src/marketing_forecast.py).

The Python module computes lead-volume forecasts with a power-law
elasticity model and exposes the two pure functions through two JSON
endpoints.  We embed the numeric computations over the real numbers:
Python float arithmetic is idealised as real arithmetic, `round(x, k)`
becomes rounding of `x * 10^k` to the nearest integer, and the Python
power operator `**` is `Real.rpow` together with an explicit error case
for the situation where CPython would produce a complex number (negative
base, non-integral exponent), which in this program always leads to a
`TypeError` at the comparison that follows the power.  Exceptions are
modelled with `Except`.
-/

/-- The observable failure modes of the embedded Python code.
`valueError` models `raise ValueError` (the InvalidInput error of the
spec), `typeError` models the `TypeError` raised when a complex number
(from a negative base raised to a fractional power) reaches a `<`
comparison, and `zeroDivision` models `ZeroDivisionError`. -/
inductive PyErr where
  | valueError : PyErr
  | typeError : PyErr
  | zeroDivision : PyErr
deriving DecidableEq

/-- Python `round(x, 2)` idealised over the reals. -/
noncomputable def round2 (x : ℝ) : ℝ := (round (x * 100) : ℤ) / 100

/-- Python `round(x, 1)` idealised over the reals. -/
noncomputable def round1 (x : ℝ) : ℝ := (round (x * 10) : ℤ) / 10

/-- Python `round(x, 0)` idealised over the reals. -/
noncomputable def round0 (x : ℝ) : ℝ := (round x : ℤ)

/-- Line 35 / line 85: `elasticity = max(0.5, min(1.0, float(elasticity)))`. -/
noncomputable def clampE (e : ℝ) : ℝ := max 0.5 (min 1 e)

/-- The Python float power `m ** e`.  For `m ≥ 0` (and for the integral
exponent `1`, the only integral value a clamped elasticity can take)
CPython returns the real power, matching `Real.rpow`; for `m < 0` with a
non-integral exponent it returns a complex number, which in both callers
in this program flows into a `<` comparison and raises `TypeError`.  The
model surfaces that error at the power itself. -/
noncomputable def powPy (m e : ℝ) : Except PyErr ℝ :=
  if m < 0 ∧ e ≠ 1 then Except.error PyErr.typeError else Except.ok (m ^ e)

/-- Line 38: `spend_multiplier = 1 + (spend_change_percent / 100)`. -/
noncomputable def spendMultiplierOf (p : ℝ) : ℝ := 1 + p / 100

/-- The dictionary returned by `forecast_leads` (lines 62-76). -/
structure ForecastResult where
  current_spend : ℝ
  current_leads : ℝ
  current_cpl : ℝ
  spend_change_percent : ℝ
  new_spend : ℝ
  spend_change_absolute : ℝ
  efficiency_factor : ℝ
  lead_change_percent : ℝ
  new_leads : ℝ
  leads_change_absolute : ℝ
  new_cpl : ℝ
  cpl_change_percent : ℝ
  elasticity : ℝ

/-- The straight-line tail of `forecast_leads` (lines 43-76), given the
already clamped elasticity `e` and the value `lm` of the power
`spend_multiplier ** elasticity`. -/
noncomputable def forecastResultOf (s l p e lm : ℝ) : ForecastResult :=
  { current_spend := round2 s
    current_leads := round2 l
    current_cpl := round2 (if l > 0 then s / l else 0)
    spend_change_percent := round2 p
    new_spend := round2 (s * spendMultiplierOf p)
    spend_change_absolute := round2 (s * spendMultiplierOf p - s)
    efficiency_factor :=
      round1 ((if p = 0 then 1 else max 0 (min 2 ((lm - 1) * 100 / p))) * 100)
    lead_change_percent := round2 (if p = 0 then 0 else (lm - 1) * 100)
    new_leads := round2 (l * lm)
    leads_change_absolute := round2 (l * lm - l)
    new_cpl := round2 (if l * lm > 0 then s * spendMultiplierOf p / (l * lm) else 0)
    cpl_change_percent :=
      round2 (if (if l > 0 then s / l else 0) > 0 then
        ((if l * lm > 0 then s * spendMultiplierOf p / (l * lm) else 0) -
          (if l > 0 then s / l else 0)) / (if l > 0 then s / l else 0) * 100
      else 0)
    elasticity := round2 e }

/-- Embedding of `forecast_leads` (lines 11-76).  The function clamps the
elasticity, computes the spend multiplier and the power-law lead
multiplier, and returns the result dictionary; the only way it can fail
is the power on a negative base (spend cut below -100 percent). -/
noncomputable def forecast_leads (s l p e : ℝ) : Except PyErr ForecastResult :=
  (powPy (spendMultiplierOf p) (clampE e)).map (fun lm => forecastResultOf s l p (clampE e) lm)

theorem powPy_ok {m e : ℝ} (h : ¬(m < 0 ∧ e ≠ 1)) : powPy m e = Except.ok (m ^ e) := by
  unfold powPy
  exact if_neg h

theorem powPy_ok_of_nonneg {m e : ℝ} (h : 0 ≤ m) : powPy m e = Except.ok (m ^ e) :=
  powPy_ok (by simp [not_lt.mpr h])

/-- Line 90: `spend_multiplier = new_spend / current_budget` with
`new_spend = current_budget + additional_funds` (line 89). -/
noncomputable def incSpendMultiplier (b f : ℝ) : ℝ := (b + f) / b

/-- The conversion-rate block of `forecast_incremental`
(lines 118-125), emitted only when visits are supplied and positive. -/
structure ConvInfo where
  current_conversion_rate : ℝ
  new_conversion_rate : ℝ
  current_visits : ℝ
  new_visits : ℝ

/-- The dictionary returned by `forecast_incremental` (lines 104-126);
`conv` is `some _` exactly when the four conversion-rate keys are
present. -/
structure IncResult where
  current_budget : ℝ
  current_cpa : ℝ
  current_leads : ℝ
  additional_funds : ℝ
  new_spend : ℝ
  incremental_leads : ℝ
  new_leads : ℝ
  lead_change_percent : ℝ
  new_cpa : ℝ
  cpl_change_percent : ℝ
  efficiency_factor : ℝ
  elasticity : ℝ
  conv : Option ConvInfo

/-- The straight-line tail of `forecast_incremental` (lines 88-126),
given the clamped elasticity `e`, the spend multiplier `m` and the value
`lm` of the power `spend_multiplier ** elasticity`.  Here
`current_leads = b / c` (line 88) and `new_spend = b + f` (line 89). -/
noncomputable def incResultOf (b c f e m lm : ℝ) (v : Option ℝ) : IncResult :=
  { current_budget := round2 b
    current_cpa := round2 c
    current_leads := round2 (b / c)
    additional_funds := round2 f
    new_spend := round2 (b + f)
    incremental_leads := round2 (b / c * lm - b / c)
    new_leads := round2 (b / c * lm)
    lead_change_percent := round2 ((lm - 1) * 100)
    new_cpa := round2 (if b / c * lm > 0 then (b + f) / (b / c * lm) else 0)
    cpl_change_percent :=
      round2 (if c > 0 then
        ((if b / c * lm > 0 then (b + f) / (b / c * lm) else 0) - c) / c * 100
      else 0)
    efficiency_factor :=
      round1 (max 0 (min 2
        (if (if b > 0 then f / b * 100 else 0) ≠ 0 then
          (lm - 1) * 100 / (if b > 0 then f / b * 100 else 0)
        else 1)) * 100)
    elasticity := round2 e
    conv :=
      match v with
      | some vv =>
          if vv > 0 then
            some { current_conversion_rate := round2 (b / c / vv * 100)
                   new_conversion_rate :=
                     round2 (if vv * m > 0 then b / c * lm / (vv * m) * 100 else 0)
                   current_visits := round0 vv
                   new_visits := round0 (vv * m) }
          else none
      | none => none }

/-- Embedding of `forecast_incremental` (lines 79-126).  The function
clamps the elasticity, raises `ValueError` when `current_cpa ≤ 0`
(line 86), raises `ZeroDivisionError` when `current_budget = 0` (the
division on line 90), applies the power-law transform (which is the
`TypeError` path when the spend multiplier is negative), and otherwise
returns the result dictionary.  Note that, unlike the spec, it performs
NO check on `current_budget` or `additional_funds`. -/
noncomputable def forecast_incremental (b c f e : ℝ) (v : Option ℝ) : Except PyErr IncResult :=
  if c ≤ 0 then Except.error PyErr.valueError
  else if b = 0 then Except.error PyErr.zeroDivision
  else
    (powPy (incSpendMultiplier b f) (clampE e)).map
      (fun lm => incResultOf b c f (clampE e) (incSpendMultiplier b f) lm v)

/-- Raw (unrounded) forecast lead count of `forecast_leads` (line 43):
`new_leads = current_leads * spend_multiplier ** elasticity`. -/
noncomputable def newLeadsRaw (l p e : ℝ) : ℝ := l * spendMultiplierOf p ^ clampE e

/-- Raw (unrounded) lead count of `forecast_incremental` (line 92). -/
noncomputable def incNewLeadsRaw (b c f e : ℝ) : ℝ :=
  b / c * incSpendMultiplier b f ^ clampE e

/-- Raw (unrounded) blended CPA of `forecast_incremental` (line 95):
`new_cpa = new_spend / new_leads if new_leads > 0 else 0`. -/
noncomputable def incNewCpaRaw (b c f e : ℝ) : ℝ :=
  if incNewLeadsRaw b c f e > 0 then (b + f) / incNewLeadsRaw b c f e else 0

/-- The parsed JSON body of `POST /api/forecast` (lines 147-156): the
three numeric fields default to `0` when absent, and `elasticity`
defaults to `0.82` when absent. -/
structure ForecastRequest where
  current_spend : ℝ
  current_leads : ℝ
  spend_change_percent : ℝ
  elasticity : Option ℝ

/-- Embedding of the handler `api_forecast` (lines 143-170).  Errors are
HTTP status codes: failed validation and `ValueError` map to 400, any
other exception to 500. -/
noncomputable def api_forecast (req : ForecastRequest) : Except Nat ForecastResult :=
  if req.current_spend ≤ 0 then Except.error 400
  else if req.current_leads ≤ 0 then Except.error 400
  else
    match forecast_leads req.current_spend req.current_leads req.spend_change_percent
        (req.elasticity.getD 0.82) with
    | Except.ok r => Except.ok r
    | Except.error PyErr.valueError => Except.error 400
    | Except.error _ => Except.error 500

/-- Python `int(float(x))`: truncation toward zero. -/
noncomputable def intTrunc (x : ℝ) : ℤ := if 0 ≤ x then ⌊x⌋ else ⌈x⌉

/-- The parsed JSON body of `POST /api/forecast-incremental`
(lines 177-190 and 199-203): the three numeric fields default to `0`,
`elasticity` defaults to `0.82`; `current_visits` and `period_days` are
`none` when absent or the empty string. -/
structure IncRequest where
  current_budget : ℝ
  current_cpa : ℝ
  additional_funds : ℝ
  elasticity : Option ℝ
  current_visits : Option ℝ
  period_days : Option ℝ

/-- The JSON object returned by `api_forecast_incremental`
(lines 211-213): the `forecast_incremental` dictionary plus the period
bookkeeping fields. -/
structure IncApiResult where
  base : IncResult
  period_days : ℤ
  total_additional_funds : ℝ
  daily_additional_funds : ℝ

/-- Lines 199-203: `period_days = max(1, int(float(period_days)))` when
supplied and non-empty, else `1`. -/
noncomputable def periodDaysOf (pd : Option ℝ) : ℤ :=
  match pd with
  | some x => max 1 (intTrunc x)
  | none => 1

/-- Embedding of the handler `api_forecast_incremental`
(lines 173-218): validation of budget, CPA and additional funds
(lines 192-197), the period default (lines 199-203), division of the
total additional funds by the period (line 205), and the call to
`forecast_incremental` on the daily rate.  `ValueError` maps to 400,
any other exception to 500. -/
noncomputable def api_forecast_incremental (req : IncRequest) : Except Nat IncApiResult :=
  if req.current_budget ≤ 0 then Except.error 400
  else if req.current_cpa ≤ 0 then Except.error 400
  else if req.additional_funds < 0 then Except.error 400
  else
    match forecast_incremental req.current_budget req.current_cpa
        (req.additional_funds / (periodDaysOf req.period_days : ℝ))
        (req.elasticity.getD 0.82) req.current_visits with
    | Except.ok r =>
        Except.ok { base := r
                    period_days := periodDaysOf req.period_days
                    total_additional_funds := round2 req.additional_funds
                    daily_additional_funds :=
                      round2 (req.additional_funds / (periodDaysOf req.period_days : ℝ)) }
    | Except.error PyErr.valueError => Except.error 400
    | Except.error _ => Except.error 500

theorem round_real_mono {x y : ℝ} (h : x ≤ y) : round x ≤ round y := by
  rw [round_eq, round_eq]
  exact Int.floor_mono (by linarith)

theorem round2_zero : round2 0 = 0 := by
  unfold round2
  norm_num

theorem round2_intCast (n : ℤ) : round2 (n : ℝ) = n := by
  unfold round2
  have h : ((n : ℝ)) * 100 = ((n * 100 : ℤ) : ℝ) := by push_cast; ring
  rw [h, round_intCast]
  push_cast
  ring

theorem round1_intCast (n : ℤ) : round1 (n : ℝ) = n := by
  unfold round1
  have h : ((n : ℝ)) * 10 = ((n * 10 : ℤ) : ℝ) := by push_cast; ring
  rw [h, round_intCast]
  push_cast
  ring

theorem round2_mono {x y : ℝ} (h : x ≤ y) : round2 x ≤ round2 y := by
  unfold round2
  have := round_real_mono (mul_le_mul_of_nonneg_right h (by norm_num : (0:ℝ) ≤ 100))
  have hc : ((round (x * 100) : ℤ) : ℝ) ≤ ((round (y * 100) : ℤ) : ℝ) := by exact_mod_cast this
  linarith

theorem clampE_mem (e : ℝ) : 0.5 ≤ clampE e ∧ clampE e ≤ 1 := by
  unfold clampE
  constructor
  · exact le_max_left _ _
  · exact max_le (by norm_num) (min_le_left _ _)

theorem clampE_pos (e : ℝ) : 0 < clampE e := lt_of_lt_of_le (by norm_num) (clampE_mem e).1

theorem clampE_idem (e : ℝ) : clampE (clampE e) = clampE e := by
  have h := clampE_mem e
  rw [show clampE (clampE e) = max 0.5 (min 1 (clampE e)) from rfl]
  rw [min_eq_right h.2, max_eq_right h.1]

theorem clampE_of_one_le {e : ℝ} (h : 1 ≤ e) : clampE e = 1 := by
  unfold clampE
  rw [min_eq_left h]
  norm_num

theorem clampE_of_le_half {e : ℝ} (h : e ≤ 0.5) : clampE e = 0.5 := by
  unfold clampE
  exact max_eq_left (le_trans (min_le_right 1 e) h)

theorem forecast_leads_eq_ok (s l : ℝ) {p e : ℝ}
    (h : ¬(spendMultiplierOf p < 0 ∧ clampE e ≠ 1)) :
    forecast_leads s l p e =
      Except.ok (forecastResultOf s l p (clampE e) (spendMultiplierOf p ^ clampE e)) := by
  unfold forecast_leads
  rw [powPy_ok h]
  rfl

theorem forecast_incremental_eq_ok {b c f e : ℝ} (v : Option ℝ) (hc : 0 < c) (hb : b ≠ 0)
    (h : ¬(incSpendMultiplier b f < 0 ∧ clampE e ≠ 1)) :
    forecast_incremental b c f e v =
      Except.ok (incResultOf b c f (clampE e) (incSpendMultiplier b f)
        (incSpendMultiplier b f ^ clampE e) v) := by
  unfold forecast_incremental
  rw [if_neg (not_le.mpr hc), if_neg hb, powPy_ok h]
  rfl

theorem clampE_082 : clampE (0.82 : ℝ) = 0.82 := by
  unfold clampE
  rw [min_eq_right (by norm_num : (0.82:ℝ) ≤ 1), max_eq_right (by norm_num : (0.5:ℝ) ≤ 0.82)]

/-- Claim C1: the spec demands that a spend multiplier `≤ 0`
(spend_change_percent `≤ -100`) fail with InvalidInput, surfaced as HTTP
400.  The code performs no such check: at `spend_change_percent = -100`
the handler returns HTTP 200 with `new_spend = 0` and `new_leads = 0`,
and at `spend_change_percent = -150` (fractional default elasticity) the
complex-power TypeError surfaces as HTTP 500. -/
theorem C1_multiplier_nonpositive_not_rejected :
    (∃ r, api_forecast ⟨100, 10, -100, none⟩ = Except.ok r ∧
      r.new_spend = 0 ∧ r.new_leads = 0) ∧
    api_forecast ⟨100, 10, -150, none⟩ = Except.error 500 := by
  have hm0 : spendMultiplierOf (-100) = 0 := by unfold spendMultiplierOf; norm_num
  constructor
  · have hcond : ¬(spendMultiplierOf (-100) < 0 ∧ clampE (0.82:ℝ) ≠ 1) := by
      rintro ⟨h1, -⟩
      rw [hm0] at h1
      exact lt_irrefl 0 h1
    have hpow : spendMultiplierOf (-100) ^ clampE (0.82:ℝ) = 0 := by
      rw [hm0, clampE_082]
      exact Real.zero_rpow (by norm_num)
    have hfl : forecast_leads 100 10 (-100) 0.82 =
        Except.ok (forecastResultOf 100 10 (-100) (clampE 0.82) 0) := by
      rw [forecast_leads_eq_ok 100 10 hcond, hpow]
    refine ⟨forecastResultOf 100 10 (-100) (clampE 0.82) 0, ?_, ?_, ?_⟩
    · unfold api_forecast
      norm_num [Option.getD_none]
      rw [show (41/50 : ℝ) = 0.82 from by norm_num, hfl]
    · simp [forecastResultOf, hm0, round2_zero]
    · simp [forecastResultOf, round2_zero]
  · have hm15 : spendMultiplierOf (-150) = -(0.5 : ℝ) := by unfold spendMultiplierOf; norm_num
    have hfl2 : forecast_leads 100 10 (-150) 0.82 = Except.error PyErr.typeError := by
      unfold forecast_leads powPy
      rw [if_pos ⟨by rw [hm15]; norm_num, by rw [clampE_082]; norm_num⟩]
      rfl
    unfold api_forecast
    norm_num [Option.getD_none]
    rw [show (41/50 : ℝ) = 0.82 from by norm_num, hfl2]

/-- Claim C2 counterexample: the claim says `forecast_incremental` fails
with InvalidInput when `current_budget ≤ 0`.  It does not: with
`current_budget = -100, current_cpa = 50, additional_funds = 0` the
function returns a result dictionary without raising. -/
theorem C2_negative_budget_not_rejected :
    ∃ r, forecast_incremental (-100) 50 0 0.82 none = Except.ok r := by
  refine ⟨_, forecast_incremental_eq_ok none (by norm_num) (by norm_num) ?_⟩
  rintro ⟨h1, -⟩
  rw [show incSpendMultiplier (-100) 0 = 1 from by unfold incSpendMultiplier; norm_num] at h1
  norm_num at h1

/-- Claim C2 (amended): `forecast_incremental` raises the InvalidInput
`ValueError` exactly when `current_cpa ≤ 0`; it performs no check of its
own on `current_budget` or `additional_funds` (a zero budget raises
`ZeroDivisionError`, a negative one can flow through; both, like
negative funds, are screened by the HTTP caller before the call). -/
theorem C2_valueError_iff_cpa_nonpos (b c f e : ℝ) (v : Option ℝ) :
    forecast_incremental b c f e v = Except.error PyErr.valueError ↔ c ≤ 0 := by
  unfold forecast_incremental
  split_ifs with h1 h2
  · simp [h1]
  · simp [h1]
  · by_cases hm : incSpendMultiplier b f < 0 ∧ clampE e ≠ 1
    · rw [show powPy (incSpendMultiplier b f) (clampE e) = Except.error PyErr.typeError from by
        unfold powPy; rw [if_pos hm]]
      simp [Except.map, h1]
    · rw [powPy_ok hm]
      simp [Except.map, h1]

/-- Claim C3: with `spend_change_percent = 0` on a valid input the
forecast is the identity: the returned `new_spend` and `new_leads` equal
the returned `current_spend` and `current_leads`, the lead change is 0
and the efficiency factor is 100.0. -/
theorem C3_zero_change_identity (s l e : ℝ) (_hs : 0 < s) (_hl : 0 < l) :
    ∃ r, forecast_leads s l 0 e = Except.ok r ∧
      r.new_spend = r.current_spend ∧ r.new_leads = r.current_leads ∧
      r.lead_change_percent = 0 ∧ r.efficiency_factor = 100 := by
  have hm : spendMultiplierOf 0 = 1 := by unfold spendMultiplierOf; norm_num
  have hcond : ¬(spendMultiplierOf 0 < 0 ∧ clampE e ≠ 1) := by
    rintro ⟨h1, -⟩
    rw [hm] at h1
    norm_num at h1
  have hpow : spendMultiplierOf 0 ^ clampE e = 1 := by
    rw [hm]
    exact Real.one_rpow _
  have h100 : round1 (100 : ℝ) = 100 := by simpa using round1_intCast 100
  refine ⟨forecastResultOf s l 0 (clampE e) 1, ?_, ?_, ?_, ?_, ?_⟩
  · rw [forecast_leads_eq_ok s l hcond, hpow]
  · simp [forecastResultOf, hm]
  · simp [forecastResultOf]
  · simp [forecastResultOf, round2_zero]
  · simp [forecastResultOf, h100]

theorem C3_zero_change_identity_witness :
    ∃ r, forecast_leads 12500 1928 0 0.82 = Except.ok r ∧
      r.new_spend = r.current_spend ∧ r.new_leads = r.current_leads ∧
      r.lead_change_percent = 0 ∧ r.efficiency_factor = 100 :=
  C3_zero_change_identity 12500 1928 0.82 (by norm_num) (by norm_num)

/-- Claim C7: with elasticity 1.0 the lead multiplier equals the spend
multiplier, so the reported `lead_change_percent` equals the reported
`spend_change_percent` (both are the same 2-decimal rounding of the
input percentage). -/
theorem C7_unit_elasticity_roundtrip (s l p : ℝ) :
    ∃ r, forecast_leads s l p 1 = Except.ok r ∧
      r.lead_change_percent = r.spend_change_percent := by
  have hcl : clampE (1:ℝ) = 1 := clampE_of_one_le le_rfl
  have hcond : ¬(spendMultiplierOf p < 0 ∧ clampE (1:ℝ) ≠ 1) := by
    rintro ⟨-, h2⟩
    exact h2 hcl
  have hpow : spendMultiplierOf p ^ clampE (1:ℝ) = spendMultiplierOf p := by
    rw [hcl]
    exact Real.rpow_one _
  refine ⟨_, by rw [forecast_leads_eq_ok s l hcond, hpow], ?_⟩
  show round2 (if p = 0 then 0 else (spendMultiplierOf p - 1) * 100) = round2 p
  by_cases hp : p = 0
  · rw [if_pos hp, hp]
  · rw [if_neg hp]
    congr 1
    unfold spendMultiplierOf
    ring

/-- Claim C8: `POST /api/forecast` answers HTTP 400 (with an error body,
not a 200 result) whenever `current_spend ≤ 0` or `current_leads ≤ 0`,
and `POST /api/forecast-incremental` answers HTTP 400 whenever
`additional_funds < 0`. -/
theorem C8_api_validation (req : ForecastRequest) (ireq : IncRequest) :
    (req.current_spend ≤ 0 ∨ req.current_leads ≤ 0 →
      api_forecast req = Except.error 400) ∧
    (ireq.additional_funds < 0 →
      api_forecast_incremental ireq = Except.error 400) := by
  constructor
  · intro h
    unfold api_forecast
    rcases h with h | h
    · rw [if_pos h]
    · by_cases hs : req.current_spend ≤ 0
      · rw [if_pos hs]
      · rw [if_neg hs, if_pos h]
  · intro h
    unfold api_forecast_incremental
    by_cases hb : ireq.current_budget ≤ 0
    · rw [if_pos hb]
    · rw [if_neg hb]
      by_cases hc : ireq.current_cpa ≤ 0
      · rw [if_pos hc]
      · rw [if_neg hc, if_pos h]

theorem C8_api_validation_witness :
    api_forecast ⟨0, 10, 5, none⟩ = Except.error 400 ∧
    api_forecast_incremental ⟨100, 50, -1, none, none, none⟩ = Except.error 400 :=
  ⟨(C8_api_validation ⟨0, 10, 5, none⟩ ⟨100, 50, -1, none, none, none⟩).1
      (Or.inl (by norm_num)),
   (C8_api_validation ⟨0, 10, 5, none⟩ ⟨100, 50, -1, none, none, none⟩).2 (by norm_num)⟩

/-- Claim C9: supplying `current_visits ≤ 0` is indistinguishable from
supplying no visits at all: the whole result dictionary is identical and
carries no conversion-rate block; the conversion-rate block is present
exactly when visits are supplied and positive. -/
theorem C9_nonpositive_visits_like_none (b c f e v : ℝ) :
    (v ≤ 0 → forecast_incremental b c f e (some v) = forecast_incremental b c f e none) ∧
    (∀ r, forecast_incremental b c f e none = Except.ok r → r.conv = none) ∧
    (0 < v → ∀ r, forecast_incremental b c f e (some v) = Except.ok r →
      (r.conv).isSome = true) := by
  refine ⟨?_, ?_, ?_⟩
  · intro hv
    unfold forecast_incremental
    split_ifs with h1 h2
    · rfl
    · rfl
    · cases hp : powPy (incSpendMultiplier b f) (clampE e) with
      | error err => simp [Except.map]
      | ok lm =>
          simp only [Except.map, Except.ok.injEq]
          unfold incResultOf
          simp [not_lt.mpr hv]
  · intro r hr
    unfold forecast_incremental at hr
    split_ifs at hr with h1 h2
    cases hp : powPy (incSpendMultiplier b f) (clampE e) with
    | error err =>
        rw [hp] at hr
        simp [Except.map] at hr
    | ok lm =>
        rw [hp] at hr
        simp only [Except.map, Except.ok.injEq] at hr
        rw [← hr]
        simp [incResultOf]
  · intro hv r hr
    unfold forecast_incremental at hr
    split_ifs at hr with h1 h2
    cases hp : powPy (incSpendMultiplier b f) (clampE e) with
    | error err =>
        rw [hp] at hr
        simp [Except.map] at hr
    | ok lm =>
        rw [hp] at hr
        simp only [Except.map, Except.ok.injEq] at hr
        rw [← hr]
        simp [incResultOf, hv]

theorem C9_nonpositive_visits_like_none_witness :
    forecast_incremental 100 50 0 0.82 (some 0) = forecast_incremental 100 50 0 0.82 none :=
  (C9_nonpositive_visits_like_none 100 50 0 0.82 0).1 (le_refl 0)

theorem forecast_leads_congr_e {e₁ e₂ : ℝ} (h : clampE e₁ = clampE e₂) (s l p : ℝ) :
    forecast_leads s l p e₁ = forecast_leads s l p e₂ := by
  unfold forecast_leads
  rw [h]

theorem forecast_incremental_congr_e {e₁ e₂ : ℝ} (h : clampE e₁ = clampE e₂)
    (b c f : ℝ) (v : Option ℝ) :
    forecast_incremental b c f e₁ v = forecast_incremental b c f e₂ v := by
  unfold forecast_incremental
  rw [h]

theorem elasticity_field_leads {s l p e : ℝ} {r : ForecastResult}
    (hr : forecast_leads s l p e = Except.ok r) : r.elasticity = round2 (clampE e) := by
  unfold forecast_leads at hr
  cases hp : powPy (spendMultiplierOf p) (clampE e) with
  | error err =>
      rw [hp] at hr
      simp [Except.map] at hr
  | ok lm =>
      rw [hp] at hr
      simp only [Except.map, Except.ok.injEq] at hr
      rw [← hr]
      rfl

theorem elasticity_field_inc {b c f e : ℝ} {v : Option ℝ} {r : IncResult}
    (hr : forecast_incremental b c f e v = Except.ok r) : r.elasticity = round2 (clampE e) := by
  unfold forecast_incremental at hr
  split_ifs at hr with h1 h2
  cases hp : powPy (incSpendMultiplier b f) (clampE e) with
  | error err =>
      rw [hp] at hr
      simp [Except.map] at hr
  | ok lm =>
      rw [hp] at hr
      simp only [Except.map, Except.ok.injEq] at hr
      rw [← hr]
      rfl

theorem round2_half : round2 (0.5 : ℝ) = 0.5 := by
  unfold round2
  rw [show (0.5:ℝ) * 100 = ((50:ℤ):ℝ) from by push_cast; norm_num, round_intCast]
  norm_num

theorem round2_one : round2 (1 : ℝ) = 1 := by simpa using round2_intCast 1

/-- Claim C4: elasticity is clamped into [0.5, 1.0] before use, in both
forecasting functions: any elasticity argument gives the same result as
its clamped value, in particular values above 1 behave as 1 and values
below 0.5 behave as 0.5, and the reported elasticity field always lies
in [0.5, 1]. -/
theorem C4_elasticity_clamped (s l p b c f : ℝ) (v : Option ℝ) (e : ℝ) :
    forecast_leads s l p e = forecast_leads s l p (clampE e) ∧
    forecast_incremental b c f e v = forecast_incremental b c f (clampE e) v ∧
    (1 ≤ e → forecast_leads s l p e = forecast_leads s l p 1) ∧
    (e ≤ 0.5 → forecast_leads s l p e = forecast_leads s l p 0.5) ∧
    (1 ≤ e → forecast_incremental b c f e v = forecast_incremental b c f 1 v) ∧
    (e ≤ 0.5 → forecast_incremental b c f e v = forecast_incremental b c f 0.5 v) ∧
    (∀ r, forecast_leads s l p e = Except.ok r → 0.5 ≤ r.elasticity ∧ r.elasticity ≤ 1) ∧
    (∀ r, forecast_incremental b c f e v = Except.ok r →
      0.5 ≤ r.elasticity ∧ r.elasticity ≤ 1) := by
  have hone : ∀ h : 1 ≤ e, clampE e = clampE 1 := fun h => by
    rw [clampE_of_one_le h, clampE_of_one_le le_rfl]
  have hhalf : ∀ h : e ≤ 0.5, clampE e = clampE 0.5 := fun h => by
    rw [clampE_of_le_half h, clampE_of_le_half le_rfl]
  have hbounds : 0.5 ≤ round2 (clampE e) ∧ round2 (clampE e) ≤ 1 := by
    constructor
    · calc (0.5:ℝ) = round2 0.5 := round2_half.symm
        _ ≤ round2 (clampE e) := round2_mono (clampE_mem e).1
    · calc round2 (clampE e) ≤ round2 1 := round2_mono (clampE_mem e).2
        _ = 1 := round2_one
  refine ⟨forecast_leads_congr_e (clampE_idem e).symm s l p,
    forecast_incremental_congr_e (clampE_idem e).symm b c f v,
    fun h => forecast_leads_congr_e (hone h) s l p,
    fun h => forecast_leads_congr_e (hhalf h) s l p,
    fun h => forecast_incremental_congr_e (hone h) b c f v,
    fun h => forecast_incremental_congr_e (hhalf h) b c f v,
    fun r hr => ?_, fun r hr => ?_⟩
  · rw [elasticity_field_leads hr]
    exact hbounds
  · rw [elasticity_field_inc hr]
    exact hbounds

theorem C4_elasticity_clamped_witness :
    forecast_leads 100 10 10 5 = forecast_leads 100 10 10 1 ∧
    forecast_incremental 100 50 20 0.1 none = forecast_incremental 100 50 20 0.5 none :=
  ⟨(C4_elasticity_clamped 100 10 10 100 50 20 none 5).2.2.1 (by norm_num),
   (C4_elasticity_clamped 100 10 10 100 50 20 none 0.1).2.2.2.2.2.1 (by norm_num)⟩

theorem powPy_ok_inv {m e lm : ℝ} (h : powPy m e = Except.ok lm) : lm = m ^ e := by
  unfold powPy at h
  split_ifs at h with hcond
  exact (Except.ok.inj h).symm

theorem new_leads_field_leads {s l p e : ℝ} {r : ForecastResult}
    (hr : forecast_leads s l p e = Except.ok r) : r.new_leads = round2 (newLeadsRaw l p e) := by
  unfold forecast_leads at hr
  cases hp : powPy (spendMultiplierOf p) (clampE e) with
  | error err =>
      rw [hp] at hr
      simp [Except.map] at hr
  | ok lm =>
      rw [hp] at hr
      simp only [Except.map, Except.ok.injEq] at hr
      rw [← hr, powPy_ok_inv hp]
      rfl

/-- Claim C6: for fixed positive spend and leads and clamped elasticity
below 1, the (unrounded) forecast lead count of `forecast_leads` is
strictly increasing in the spend change percentage wherever the spend
multiplier is positive; the returned `new_leads` field is the 2-decimal
rounding of that quantity. -/
theorem C6_new_leads_strict_mono (s l e p₁ p₂ : ℝ) (_hs : 0 < s) (hl : 0 < l)
    (_he : clampE e < 1) (hm : 0 < spendMultiplierOf p₁) (hp : p₁ < p₂) :
    newLeadsRaw l p₁ e < newLeadsRaw l p₂ e ∧
    (∀ r, forecast_leads s l p₁ e = Except.ok r →
      r.new_leads = round2 (newLeadsRaw l p₁ e)) := by
  constructor
  · unfold newLeadsRaw
    have hmm : spendMultiplierOf p₁ < spendMultiplierOf p₂ := by
      unfold spendMultiplierOf
      have : p₁ / 100 < p₂ / 100 := by linarith
      linarith
    exact mul_lt_mul_of_pos_left
      (Real.rpow_lt_rpow (le_of_lt hm) hmm (clampE_pos e)) hl
  · intro r hr
    exact new_leads_field_leads hr

theorem C6_new_leads_strict_mono_witness :
    newLeadsRaw 10 0 0.82 < newLeadsRaw 10 10 0.82 :=
  (C6_new_leads_strict_mono 100 10 0.82 0 10 (by norm_num) (by norm_num)
    (by rw [clampE_082]; norm_num)
    (by unfold spendMultiplierOf; norm_num) (by norm_num)).1

theorem new_cpa_field_inc {b c f e : ℝ} {v : Option ℝ} {r : IncResult}
    (hr : forecast_incremental b c f e v = Except.ok r) :
    r.new_cpa = round2 (incNewCpaRaw b c f e) := by
  unfold forecast_incremental at hr
  split_ifs at hr with h1 h2
  cases hp : powPy (incSpendMultiplier b f) (clampE e) with
  | error err =>
      rw [hp] at hr
      simp [Except.map] at hr
  | ok lm =>
      rw [hp] at hr
      simp only [Except.map, Except.ok.injEq] at hr
      rw [← hr, powPy_ok_inv hp]
      rfl

/-- Claim C10: for valid inputs the unrounded blended CPA after the
injection is at least the current CPA, with equality exactly when no
funds are added or the clamped elasticity is 1 (the linear case); the
returned `new_cpa` field is the 2-decimal rounding of that quantity. -/
theorem C10_new_cpa_never_below_current (b c f e : ℝ) (v : Option ℝ)
    (hb : 0 < b) (hc : 0 < c) (hf : 0 ≤ f) :
    c ≤ incNewCpaRaw b c f e ∧
    (incNewCpaRaw b c f e = c ↔ f = 0 ∨ clampE e = 1) ∧
    (∀ r, forecast_incremental b c f e v = Except.ok r →
      r.new_cpa = round2 (incNewCpaRaw b c f e)) := by
  have hm1 : 1 ≤ incSpendMultiplier b f := by
    unfold incSpendMultiplier
    rw [le_div_iff₀ hb]
    linarith
  have hm0 : (0:ℝ) < incSpendMultiplier b f := lt_of_lt_of_le one_pos hm1
  have hce := clampE_mem e
  have hlm : 0 < incSpendMultiplier b f ^ clampE e := Real.rpow_pos_of_pos hm0 _
  have hleads : 0 < incNewLeadsRaw b c f e := by
    unfold incNewLeadsRaw
    exact mul_pos (div_pos hb hc) hlm
  have hbf : b + f = b * incSpendMultiplier b f := by
    unfold incSpendMultiplier
    field_simp
  have hval : incNewCpaRaw b c f e =
      c * incSpendMultiplier b f ^ (1 - clampE e) := by
    unfold incNewCpaRaw
    rw [if_pos hleads]
    unfold incNewLeadsRaw
    rw [hbf, Real.rpow_sub hm0, Real.rpow_one]
    field_simp
    ring
  have h1le : 1 ≤ incSpendMultiplier b f ^ (1 - clampE e) := by
    calc (1:ℝ) = 1 ^ (1 - clampE e) := (Real.one_rpow _).symm
    _ ≤ incSpendMultiplier b f ^ (1 - clampE e) :=
      Real.rpow_le_rpow zero_le_one hm1 (by linarith [hce.2])
  refine ⟨?_, ?_, fun r hr => new_cpa_field_inc hr⟩
  · rw [hval]
    exact le_mul_of_one_le_right hc.le h1le
  · rw [hval]
    have hx : c * incSpendMultiplier b f ^ (1 - clampE e) = c ↔
        incSpendMultiplier b f ^ (1 - clampE e) = 1 := by
      constructor
      · intro h
        exact mul_left_cancel₀ (ne_of_gt hc) (h.trans (mul_one c).symm)
      · intro h
        rw [h, mul_one]
    rw [hx]
    constructor
    · intro h
      by_contra hcon
      push_neg at hcon
      obtain ⟨hf0, he1⟩ := hcon
      have hmgt : 1 < incSpendMultiplier b f := by
        rcases lt_or_eq_of_le hm1 with h1 | h1
        · exact h1
        · exfalso
          apply hf0
          have : (b + f) / b = 1 := h1.symm
          rw [div_eq_one_iff_eq (ne_of_gt hb)] at this
          linarith
      have htpos : 0 < 1 - clampE e := by
        rcases lt_or_eq_of_le hce.2 with h1 | h1
        · linarith
        · exact absurd h1 he1
      have := (Real.one_lt_rpow_iff_of_pos hm0).mpr (Or.inl ⟨hmgt, htpos⟩)
      linarith [this, h.ge, h.le]
    · rintro (h | h)
      · rw [show incSpendMultiplier b f = 1 from by
          unfold incSpendMultiplier
          rw [h, add_zero, div_self (ne_of_gt hb)]]
        exact Real.one_rpow _
      · rw [h, sub_self, Real.rpow_zero]

theorem C10_new_cpa_never_below_current_witness :
    (50:ℝ) ≤ incNewCpaRaw 100 50 100 0.82 ∧
    (incNewCpaRaw 100 50 0 0.82 = 50 ↔ (0:ℝ) = 0 ∨ clampE 0.82 = 1) :=
  ⟨(C10_new_cpa_never_below_current 100 50 100 0.82 none
      (by norm_num) (by norm_num) (by norm_num)).1,
   (C10_new_cpa_never_below_current 100 50 0 0.82 none
      (by norm_num) (by norm_num) (by norm_num)).2.1⟩

theorem periodDaysOf_pos (pd : Option ℝ) : 1 ≤ periodDaysOf pd := by
  cases pd with
  | none => exact le_refl 1
  | some x => exact le_max_left 1 (intTrunc x)

theorem inc_ok_of_valid (b c f e0 : ℝ) (v : Option ℝ)
    (hb : 0 < b) (hc : 0 < c) (hf : 0 ≤ f) :
    forecast_incremental b c f e0 v =
      Except.ok (incResultOf b c f (clampE e0) (incSpendMultiplier b f)
        (incSpendMultiplier b f ^ clampE e0) v) := by
  refine forecast_incremental_eq_ok v hc (ne_of_gt hb) ?_
  rintro ⟨h1, -⟩
  have : (0:ℝ) ≤ incSpendMultiplier b f := by
    unfold incSpendMultiplier
    exact div_nonneg (by linarith) hb.le
  exact absurd h1 (not_lt.mpr this)

theorem api_inc_eval (req : IncRequest) (hb : 0 < req.current_budget)
    (hc : 0 < req.current_cpa) (hf : 0 ≤ req.additional_funds) :
    api_forecast_incremental req =
      Except.ok
        { base := incResultOf req.current_budget req.current_cpa
            (req.additional_funds / (periodDaysOf req.period_days : ℝ))
            (clampE (req.elasticity.getD 0.82))
            (incSpendMultiplier req.current_budget
              (req.additional_funds / (periodDaysOf req.period_days : ℝ)))
            (incSpendMultiplier req.current_budget
              (req.additional_funds / (periodDaysOf req.period_days : ℝ)) ^
              clampE (req.elasticity.getD 0.82))
            req.current_visits
          period_days := periodDaysOf req.period_days
          total_additional_funds := round2 req.additional_funds
          daily_additional_funds :=
            round2 (req.additional_funds / (periodDaysOf req.period_days : ℝ)) } := by
  have hPpos : (0:ℝ) < ((periodDaysOf req.period_days : ℤ) : ℝ) := by
    exact_mod_cast lt_of_lt_of_le Int.zero_lt_one (periodDaysOf_pos req.period_days)
  have hdaily : 0 ≤ req.additional_funds / (periodDaysOf req.period_days : ℝ) :=
    div_nonneg hf hPpos.le
  have hinc := inc_ok_of_valid req.current_budget req.current_cpa
    (req.additional_funds / (periodDaysOf req.period_days : ℝ))
    (req.elasticity.getD 0.82) req.current_visits hb hc hdaily
  unfold api_forecast_incremental
  rw [if_neg (not_le.mpr hb), if_neg (not_le.mpr hc), if_neg (not_lt.mpr hf), hinc]

/-- Claim C5: on `POST /api/forecast-incremental`, `period_days`
defaults to 1 and is otherwise truncated to an integer and clamped to at
least 1; the supplied `additional_funds` is the total over the period
and is divided by `period_days` before being passed to
`forecast_incremental`; the response echoes `period_days`,
`total_additional_funds` and `daily_additional_funds`.  On the concrete
input budget 10000, CPA 50, additional funds 2000 over 10 days this
gives a daily 200 and the model sees `new_spend = 10200` against
`current_budget = 10000`. -/
theorem C5_period_days (req : IncRequest) (hb : 0 < req.current_budget)
    (hc : 0 < req.current_cpa) (hf : 0 ≤ req.additional_funds) :
    (∃ r, api_forecast_incremental req = Except.ok r ∧
      r.period_days = periodDaysOf req.period_days ∧
      (req.period_days = none → r.period_days = 1) ∧
      (∀ x, req.period_days = some x → r.period_days = max 1 (intTrunc x)) ∧
      1 ≤ r.period_days ∧
      r.total_additional_funds = round2 req.additional_funds ∧
      r.daily_additional_funds = round2 (req.additional_funds / (r.period_days : ℝ)) ∧
      forecast_incremental req.current_budget req.current_cpa
        (req.additional_funds / (r.period_days : ℝ)) (req.elasticity.getD 0.82)
        req.current_visits = Except.ok r.base) ∧
    (∃ r, api_forecast_incremental ⟨10000, 50, 2000, none, none, some 10⟩ = Except.ok r ∧
      r.period_days = 10 ∧ r.daily_additional_funds = 200 ∧
      r.base.new_spend = 10200 ∧ r.base.current_budget = 10000) := by
  constructor
  · refine ⟨_, api_inc_eval req hb hc hf, rfl, ?_, ?_, periodDaysOf_pos req.period_days,
      rfl, rfl, ?_⟩
    · intro h
      show periodDaysOf req.period_days = 1
      rw [h]
      rfl
    · intro x h
      show periodDaysOf req.period_days = max 1 (intTrunc x)
      rw [h]
      rfl
    · have hPpos : (0:ℝ) < ((periodDaysOf req.period_days : ℤ) : ℝ) := by
        exact_mod_cast lt_of_lt_of_le Int.zero_lt_one (periodDaysOf_pos req.period_days)
      exact inc_ok_of_valid req.current_budget req.current_cpa
        (req.additional_funds / (periodDaysOf req.period_days : ℝ))
        (req.elasticity.getD 0.82) req.current_visits hb hc (div_nonneg hf hPpos.le)
  · have hP : periodDaysOf (some (10:ℝ)) = 10 := by
      show max 1 (intTrunc 10) = 10
      unfold intTrunc
      rw [if_pos (by norm_num : (0:ℝ) ≤ 10)]
      rw [show (10:ℝ) = ((10:ℤ):ℝ) from by norm_num, Int.floor_intCast]
      decide
    have heval := api_inc_eval ⟨10000, 50, 2000, none, none, some 10⟩
      (by norm_num) (by norm_num) (by norm_num)
    refine ⟨_, heval, ?_, ?_, ?_, ?_⟩
    · show periodDaysOf (some (10:ℝ)) = 10
      exact hP
    · show round2 ((2000:ℝ) / ((periodDaysOf (some (10:ℝ)) : ℤ) : ℝ)) = 200
      rw [hP, show (((10:ℤ)):ℝ) = (10:ℝ) from by norm_num,
        show (2000:ℝ) / 10 = 200 from by norm_num]
      simpa using round2_intCast 200
    · show round2 ((10000:ℝ) + (2000:ℝ) / ((periodDaysOf (some (10:ℝ)) : ℤ) : ℝ)) = 10200
      rw [hP, show (((10:ℤ)):ℝ) = (10:ℝ) from by norm_num,
        show (10000:ℝ) + 2000 / 10 = 10200 from by norm_num]
      simpa using round2_intCast 10200
    · show round2 (10000:ℝ) = 10000
      simpa using round2_intCast 10000

theorem C5_period_days_witness :
    ∃ r, api_forecast_incremental ⟨10000, 50, 2000, none, none, some 10⟩ = Except.ok r ∧
      r.period_days = 10 ∧ r.daily_additional_funds = 200 ∧
      r.base.new_spend = 10200 ∧ r.base.current_budget = 10000 :=
  (C5_period_days ⟨10000, 50, 2000, none, none, some 10⟩
    (by norm_num) (by norm_num) (by norm_num)).2

